import Mathlib

/-!
Verification of the CalDAV client facade `src/services/caldavService.js`
of the calendar repository, as a shallow embedding in Lean 4.

The facade is a thin layer over the external `cdav-library` DavClient
(the Transport collaborator of the spec).  Pure control flow of the
facade (lazy singleton, batching, indexing, pass-through) is embedded
directly from the source; the effects of the external collaborator
(`connect`, `_createPublicCalendarHome`, the calendar-home methods and
the principal search) are modelled from the contract the spec states
for them, with explicit state passing.  Fallible operations return
`Except CalError`.
-/

namespace CaldavService

/-- Error taxonomy of the facade (spec section 7), plus the implicit
JavaScript TypeError raised by reading a method off `undefined`, which
is what `calendarHomes[0].someMethod()` does when the session has no
calendar home. -/
inductive CalError where
  | typeError : CalError
  | notAuthenticated : CalError
  | connectionError : CalError
  | collectionCreateError : CalError
deriving DecidableEq, Repr

/-- Principal entity: a directory entry with a URL and a display name. -/
structure Principal where
  principalUrl : String
  displayName : String
deriving DecidableEq, Repr

/-- Calendar entity: a collection with a server-assigned url/token,
display name, color, supported component set, ordering hint, and an
optional webcal source. -/
structure Calendar where
  url : String
  displayName : String
  color : String
  components : List String
  order : Nat
  source : Option String
deriving DecidableEq, Repr

/-- Scheduling inbox collection (RFC 6638). -/
structure ScheduleInbox where
  url : String
deriving DecidableEq, Repr

/-- Scheduling outbox collection (RFC 6638). -/
structure ScheduleOutbox where
  url : String
deriving DecidableEq, Repr

/-- Modelled from the spec: the well-known birthday-calendar identifier
imported from `../models/consts.js`, a file of the repository that is
not under `src/`.  Its concrete value is irrelevant to every claim;
only its role as a fixed lookup key matters. -/
def CALDAV_BIRTHDAY_CALENDAR : String := "contact_birthdays"

/-- Calendar home: server-discovered root collection owning calendars
and scheduling collections.  The field values stand for what discovery
requests against the server would return. -/
structure CalendarHome where
  calendars : List Calendar
  scheduleInboxes : List ScheduleInbox
  scheduleOutboxes : List ScheduleOutbox
deriving DecidableEq, Repr

/-- State of the underlying DavClient instance: the current user
principal (populated only by an authenticated `connect`), the
discovered calendar homes, and the public-calendar-home placeholder
(populated only by `_createPublicCalendarHome`). -/
structure DavClient where
  currentUserPrincipal : Option Principal
  calendarHomes : List CalendarHome
  publicCalendarHome : Option Unit
deriving DecidableEq, Repr

/-- A freshly constructed DavClient, before any bootstrap call: the
constructor only records the root url and the header provider, it
performs no discovery. -/
def newClient : DavClient :=
  { currentUserPrincipal := none, calendarHomes := [], publicCalendarHome := none }

/-! ## The lazy singleton `getClient` (lines 27-59)

The module-level variable `client` and the construction effect are made
explicit as a `ClientCell` state.  Client instances are identified by
the value of the construction counter at the moment `new DavClient`
ran, so two distinct constructions can never yield equal identifiers. -/

/-- Module-level mutable state of `caldavService.js`: the `client`
variable (line 27) holding the singleton reference, and a counter of
how many times the `new DavClient` constructor has run. -/
structure ClientCell where
  client : Option Nat
  constructions : Nat
deriving DecidableEq, Repr

/-- Embedding of `getClient` (lines 28-59): if `client` is set, return
it; otherwise assign `client` to a newly constructed instance and make
the recursive tail call `return getClient()`. -/
def getClient (s : ClientCell) : Nat × ClientCell :=
  match _h : s.client with
  | some c => (c, s)
  | none =>
      getClient { client := some s.constructions, constructions := s.constructions + 1 }
termination_by (match s.client with | some _ => 0 | none => 1)
decreasing_by rw [_h]; exact Nat.zero_lt_one

/-! ## Public calendar batch lookup (lines 90-103) -/

/-- Embedding of `findPublicCalendarsByTokens` (lines 90-103).  The
per-token server resolution `publicCalendarHome.find(token)` is the
parameter `resolve`; a rejected token is a `none` result, exactly what
the `.catch(() => null)` on line 96 produces.  The loop collects one
result per token, `Promise.all` joins them positionally, and line 102
filters the `null` entries out. -/
def findPublicCalendarsByTokens (resolve : String → Option Calendar)
    (tokens : List String) : List Calendar :=
  let findResults := tokens.map (fun token => resolve token)
  ((findResults.filter (fun calendar => calendar ≠ none)).filterMap id)

/-! ## Bootstrap (lines 64-73) -/

/-- Modelled from the spec: the per-account data an authenticated
`connect({ enableCalDAV: true })` discovers on the server (spec section
4.1: root resource discovery populating the CalendarHome references and
the current-user principal). -/
structure ServerAccount where
  principal : Principal
  homes : List CalendarHome
deriving DecidableEq, Repr

/-- Modelled from the spec: the effect of the external
`client.connect({ enableCalDAV: true })` call, which populates the
current-user principal and the calendar homes from server discovery. -/
def connect (acct : ServerAccount) (c : DavClient) : DavClient :=
  { c with currentUserPrincipal := some acct.principal, calendarHomes := acct.homes }

/-- Embedding of `initializeClientForUserView` (lines 64-66): awaits
`getClient().connect({ enableCalDAV: true })`. -/
def initializeClientForUserView (acct : ServerAccount) (c : DavClient) : DavClient :=
  connect acct c

/-- Modelled from the spec: the effect of the external
`client._createPublicCalendarHome()` call, which establishes the
public-calendar-home placeholder without authentication and without
user-principal discovery (spec section 4.1). -/
def createPublicCalendarHome (c : DavClient) : DavClient :=
  { c with publicCalendarHome := some () }

/-- Embedding of `initializeClientForPublicView` (lines 71-73): awaits
`getClient()._createPublicCalendarHome()`. -/
def initializeClientForPublicView (c : DavClient) : DavClient :=
  createPublicCalendarHome c

/-! ## Home-scoped discovery and creation

Every one of these facade operations reads `getClient().calendarHomes[0]`
with an unguarded index.  In JavaScript, when `calendarHomes` is empty
the indexing yields `undefined` and the subsequent method call throws a
TypeError; the embedding returns `Except.error CalError.typeError` in
exactly that case and otherwise proceeds on the first home. -/

/-- Embedding of `findAllCalendars` (lines 80-82): delegates to
`calendarHomes[0].findAllCalendars()`, whose server answer is the
calendars of the first home. -/
def findAllCalendars (c : DavClient) : Except CalError (List Calendar) :=
  match c.calendarHomes with
  | [] => .error .typeError
  | home :: _ => .ok home.calendars

/-- Embedding of `findSchedulingInbox` (lines 118-121): awaits the full
list `calendarHomes[0].findAllScheduleInboxes()` and returns its entry
at index 0, which in JavaScript is `undefined` (here `none`) when the
list is empty. -/
def findSchedulingInbox (c : DavClient) : Except CalError (Option ScheduleInbox) :=
  match c.calendarHomes with
  | [] => .error .typeError
  | home :: _ =>
      let inboxes := home.scheduleInboxes
      .ok inboxes[0]?

/-- Embedding of `findSchedulingOutbox` (lines 136-139), symmetric to
the inbox case. -/
def findSchedulingOutbox (c : DavClient) : Except CalError (Option ScheduleOutbox) :=
  match c.calendarHomes with
  | [] => .error .typeError
  | home :: _ =>
      let outboxes := home.scheduleOutboxes
      .ok outboxes[0]?

/-- Modelled from the spec: the external
`calendarHome.createCalendarCollection` request.  When the server
accepts it (the `accept` parameter stands for the server-side verdict),
the server assigns the final path and confirms the requested properties
(spec section 4.3); when the server rejects it (name collision,
insufficient permission, quota), the request fails with
`CollectionCreateError` (spec sections 4.3 and 7). -/
def createCalendarCollection (accept : Bool) (displayName color : String)
    (components : List String) (order : Nat) (home : CalendarHome) :
    Except CalError (Calendar × CalendarHome) :=
  if accept then
    let calendar : Calendar :=
      { url := displayName, displayName := displayName, color := color,
        components := components, order := order, source := none }
    .ok (calendar, { home with calendars := home.calendars ++ [calendar] })
  else .error .collectionCreateError

/-- Embedding of `createCalendar` (lines 151-153): delegates to
`calendarHomes[0].createCalendarCollection(...)`; a rejection by the
server propagates unchanged to the caller. -/
def createCalendar (accept : Bool) (displayName color : String)
    (components : List String) (order : Nat)
    (c : DavClient) : Except CalError (Calendar × DavClient) :=
  match c.calendarHomes with
  | [] => .error .typeError
  | home :: rest =>
      (createCalendarCollection accept displayName color components order home).map
        (fun r => (r.1, { c with calendarHomes := r.2 :: rest }))

/-- Modelled from the spec: the external
`calendarHome.createSubscribedCollection` request creating a subscribed
(webcal) collection pointed at the source url.  When the server accepts
it, the returned entity is a cached calendar proxy (spec section 4.3);
when the server rejects the create request (permission, quota, name
collision), it fails with `CollectionCreateError` (spec section 7). -/
def createSubscribedCollection (accept : Bool) (displayName color source : String)
    (order : Nat) (home : CalendarHome) : Except CalError (Calendar × CalendarHome) :=
  if accept then
    let calendar : Calendar :=
      { url := displayName, displayName := displayName, color := color,
        components := [], order := order, source := some source }
    .ok (calendar, { home with calendars := home.calendars ++ [calendar] })
  else .error .collectionCreateError

/-- Embedding of `createSubscription` (lines 166-168): delegates to
`calendarHomes[0].createSubscribedCollection(...)`; a rejection by the
server propagates unchanged to the caller. -/
def createSubscription (accept : Bool) (displayName color source : String) (order : Nat)
    (c : DavClient) : Except CalError (Calendar × DavClient) :=
  match c.calendarHomes with
  | [] => .error .typeError
  | home :: rest =>
      (createSubscribedCollection accept displayName color source order home).map
        (fun r => (r.1, { c with calendarHomes := r.2 :: rest }))

/-- Modelled from the spec: the external `calendarHome.find(token)`
lookup, resolving the child collection with the given url under the
home. -/
def CalendarHome.find (home : CalendarHome) (token : String) : Option Calendar :=
  home.calendars.find? (fun calendar => calendar.url = token)

/-- Modelled from the spec: the external
`calendarHome.enableBirthdayCalendar()` feature request; the server
ensures the birthday calendar exists under the home and succeeds also
when it already did (spec section 4.3: must not error on already
exists). -/
def CalendarHome.enableBirthday (home : CalendarHome) : CalendarHome :=
  if (home.find CALDAV_BIRTHDAY_CALENDAR).isSome then home
  else
    { home with calendars := home.calendars ++
        [{ url := CALDAV_BIRTHDAY_CALENDAR, displayName := "Birthdays", color := "",
           components := ["VEVENT"], order := 0, source := none }] }

/-- Embedding of `getBirthdayCalendar` (lines 185-187): delegates to
`calendarHomes[0].find(CALDAV_BIRTHDAY_CALENDAR)`. -/
def getBirthdayCalendar (c : DavClient) : Except CalError (Option Calendar) :=
  match c.calendarHomes with
  | [] => .error .typeError
  | home :: _ => .ok (home.find CALDAV_BIRTHDAY_CALENDAR)

/-- Embedding of `enableBirthdayCalendar` (lines 175-178): awaits
`calendarHomes[0].enableBirthdayCalendar()` and then re-resolves the
calendar through `getBirthdayCalendar()` on the updated session. -/
def enableBirthdayCalendar (c : DavClient) :
    Except CalError (Option Calendar × DavClient) :=
  match c.calendarHomes with
  | [] => .error .typeError
  | home :: rest =>
      let c := { c with calendarHomes := home.enableBirthday :: rest }
      (getBirthdayCalendar c).map (fun calendar => (calendar, c))

/-! ## Principal lookup (lines 194-206) -/

/-- Embedding of `getCurrentUserPrincipal` (lines 194-196): returns the
`currentUserPrincipal` property of the client, with no authentication
check and no throw. -/
def getCurrentUserPrincipal (c : DavClient) : Except CalError (Option Principal) :=
  .ok c.currentUserPrincipal

/-- Modelled from the spec: the external
`client.principalPropertySearchByDisplayname(query)` directory search;
an empty query yields an empty sequence without issuing a server
request, and a non-empty query is passed to the server-side property
search unchanged.  The second component counts the search requests
issued to the server. -/
def principalPropertySearchByDisplayname (search : String → List Principal)
    (query : String) : List Principal × Nat :=
  if query = "" then ([], 0) else (search query, 1)

/-- Embedding of `findPrincipalsByDisplayName` (lines 204-206): passes
the query through to `principalPropertySearchByDisplayname`. -/
def findPrincipalsByDisplayName (search : String → List Principal)
    (query : String) : List Principal × Nat :=
  principalPropertySearchByDisplayname search query

/-! ## Header injection (lines 33-56) -/

/-- Embedding of the `headers` object built by the header-provider
closure on lines 36-40: the XMLHttpRequest marker, the CSRF request
token, and the webcal caching hint. -/
def providerHeaders (requesttoken : String) : List (String × String) :=
  [("X-Requested-With", "XMLHttpRequest"),
   ("requesttoken", requesttoken),
   ("X-NC-CalDAV-Webcal-Caching", "On")]

/-- State of an outgoing request: the headers set on the xhr so far. -/
structure Request where
  headers : List (String × String)
deriving DecidableEq, Repr

/-- Embedding of the overridden `xhr.open` (lines 45-52): after calling
the original `open`, it sets every header of the provider map on the
request, so every request opened through the client-installed provider
carries them. -/
def openWithHeaders (requesttoken : String) (req : Request) : Request :=
  { req with headers := req.headers ++ providerHeaders requesttoken }

/-! ## Helper lemmas -/

/-- Once the singleton reference is set, `getClient` returns it and
changes nothing. -/
theorem getClient_of_some (s : ClientCell) (c : Nat) (h : s.client = some c) :
    getClient s = (c, s) := by
  rw [getClient]
  split <;> simp_all

/-- While the singleton reference is unset, `getClient` assigns it and
re-enters itself on the updated state. -/
theorem getClient_of_none (s : ClientCell) (h : s.client = none) :
    getClient s =
      getClient { client := some s.constructions, constructions := s.constructions + 1 } := by
  rw [getClient]
  split <;> simp_all

/-- The batch lookup is the positional join of the per-token
resolutions with the failed resolutions filtered out in place. -/
theorem findPublicCalendarsByTokens_eq_filterMap (resolve : String → Option Calendar)
    (tokens : List String) :
    findPublicCalendarsByTokens resolve tokens = tokens.filterMap resolve := by
  induction tokens with
  | nil => rfl
  | cons t ts ih =>
      unfold findPublicCalendarsByTokens at *
      simp only [List.map_cons, List.filter_cons] at *
      cases h : resolve t with
      | none => simpa [h, List.filterMap_cons] using ih
      | some cal => simpa [h, List.filterMap_cons] using ih

/-- The length of a `filterMap` counts the inputs on which the partial
function succeeds. -/
theorem length_filterMap_eq_countP (resolve : String → Option Calendar)
    (tokens : List String) :
    (tokens.filterMap resolve).length = tokens.countP (fun t => (resolve t).isSome) := by
  induction tokens with
  | nil => rfl
  | cons t ts ih =>
      cases h : resolve t with
      | none => simp [List.filterMap_cons, List.countP_cons, h, ih]
      | some cal => simp [List.filterMap_cons, List.countP_cons, h, ih]

/-- Mapping `some` over a `filterMap` gives an order-preserving
subsequence of the mapped resolutions. -/
theorem filterMap_map_some_sublist (resolve : String → Option Calendar)
    (tokens : List String) :
    List.Sublist ((tokens.filterMap resolve).map some) (tokens.map resolve) := by
  induction tokens with
  | nil => exact List.Sublist.refl []
  | cons t ts ih =>
      cases h : resolve t with
      | none =>
          rw [List.map_cons, List.filterMap_cons, h]
          exact List.Sublist.cons _ ih
      | some cal =>
          rw [List.map_cons, List.filterMap_cons, h, List.map_cons]
          exact List.Sublist.cons₂ _ ih

/-- After the enable request the birthday calendar resolves under the
home. -/
theorem enableBirthday_find_isSome (home : CalendarHome) :
    (home.enableBirthday.find CALDAV_BIRTHDAY_CALENDAR).isSome = true := by
  unfold CalendarHome.enableBirthday
  split
  · next hs => exact hs
  · next hs =>
      unfold CalendarHome.find
      rw [List.find?_isSome]
      refine ⟨_, List.mem_append_right _ (List.mem_singleton.mpr rfl), ?_⟩
      simp

/-- The enable request is a no-op on a home where the birthday calendar
already resolves. -/
theorem enableBirthday_of_isSome (home : CalendarHome)
    (h : (home.find CALDAV_BIRTHDAY_CALENDAR).isSome = true) :
    home.enableBirthday = home := by
  unfold CalendarHome.enableBirthday
  simp [h]

/-! ## Claim theorems -/

/-- C1: `getClient` is an idempotent lazy singleton.  Its recursion
terminates (the definition `getClient` is total), every call returns
the instance stored in the cell afterwards, calling again returns the
identical instance with no further state change, one call runs the
constructor at most once, a call finding the reference already set runs
it zero times, and from an unset cell the reference is assigned (to the
newly constructed instance) before the re-entrant recursive call, which
therefore observes it. -/
theorem getClient_idempotent_singleton (s : ClientCell) :
    (getClient s).2.client = some (getClient s).1 ∧
    getClient (getClient s).2 = getClient s ∧
    (getClient s).2.constructions ≤ s.constructions + 1 ∧
    (∀ c, s.client = some c →
      getClient s = (c, s) ∧ (getClient s).2.constructions = s.constructions) ∧
    (s.client = none →
      getClient s =
        (s.constructions,
         { client := some s.constructions, constructions := s.constructions + 1 })) := by
  cases h : s.client with
  | some c =>
      have h1 := getClient_of_some s c h
      refine ⟨?_, ?_, ?_, ?_, ?_⟩
      · rw [h1]; exact h
      · rw [h1]; exact h1
      · rw [h1]; exact Nat.le_succ _
      · intro c2 hc2
        cases hc2
        exact ⟨h1, by rw [h1]⟩
      · intro hn
        exact Option.noConfusion hn
  | none =>
      have h2 : getClient s =
          (s.constructions,
           { client := some s.constructions, constructions := s.constructions + 1 }) := by
        rw [getClient_of_none s h]
        exact getClient_of_some _ s.constructions rfl
      refine ⟨?_, ?_, ?_, ?_, ?_⟩
      · rw [h2]
      · rw [h2]
        exact getClient_of_some _ s.constructions rfl
      · rw [h2]
      · intro c2 hc2
        exact Option.noConfusion hc2
      · intro _
        exact h2

/-- Witness for C1: from the initial cell one construction happens and
the instance is published; on a cell whose reference is already set the
very same instance comes back with no construction. -/
theorem getClient_idempotent_singleton_witness :
    getClient ⟨none, 0⟩ = (0, ⟨some 0, 1⟩) ∧ getClient ⟨some 7, 3⟩ = (7, ⟨some 7, 3⟩) :=
  ⟨(getClient_idempotent_singleton ⟨none, 0⟩).2.2.2.2 rfl,
   ((getClient_idempotent_singleton ⟨some 7, 3⟩).2.2.2.1 7 rfl).1⟩

/-- C2: `findPublicCalendarsByTokens` returns at most one entry per
input token, exactly one entry per token the server resolution
accepted, every returned calendar comes from an accepted token, and a
rejected token contributes no entry and raises no error (the function
is total on every resolution, failures included). -/
theorem findPublicCalendarsByTokens_partial_failure (resolve : String → Option Calendar)
    (tokens : List String) :
    (findPublicCalendarsByTokens resolve tokens).length ≤ tokens.length ∧
    (findPublicCalendarsByTokens resolve tokens).length
      = tokens.countP (fun t => (resolve t).isSome) ∧
    (∀ cal ∈ findPublicCalendarsByTokens resolve tokens,
      ∃ t ∈ tokens, resolve t = some cal) := by
  rw [findPublicCalendarsByTokens_eq_filterMap]
  refine ⟨?_, length_filterMap_eq_countP resolve tokens, ?_⟩
  · rw [length_filterMap_eq_countP]
    exact List.countP_le_length _
  · intro cal hcal
    exact (List.mem_filterMap.mp hcal).imp (fun t ht => ⟨ht.1, ht.2⟩)

/-- Witness for C2: two valid tokens plus one invalid token yield
exactly two results, not an error. -/
theorem findPublicCalendarsByTokens_partial_failure_witness :
    (findPublicCalendarsByTokens
      (fun t => if t = "bad" then none else some ⟨t, t, "", [], 0, none⟩)
      ["a", "bad", "b"]).length = 2 := by
  rw [(findPublicCalendarsByTokens_partial_failure
    (fun t => if t = "bad" then none else some ⟨t, t, "", [], 0, none⟩)
    ["a", "bad", "b"]).2.1]
  decide

/-- C9: the successful results of `findPublicCalendarsByTokens` are the
positional join of the per-token resolutions with failures filtered out
in place, hence a deterministic, order-preserving subsequence of the
resolutions of the input list. -/
theorem findPublicCalendarsByTokens_order_preserving (resolve : String → Option Calendar)
    (tokens : List String) :
    findPublicCalendarsByTokens resolve tokens = tokens.filterMap resolve ∧
    List.Sublist ((findPublicCalendarsByTokens resolve tokens).map some)
      (tokens.map resolve) := by
  refine ⟨findPublicCalendarsByTokens_eq_filterMap resolve tokens, ?_⟩
  rw [findPublicCalendarsByTokens_eq_filterMap]
  exact filterMap_map_some_sublist resolve tokens

/-- C3 counterexample: on the session initialized via
`initializeClientForPublicView` from a fresh client,
`getCurrentUserPrincipal` returns the absent principal as an ordinary
value and does not raise `NotAuthenticatedError`, contradicting the
claim that it fails fast there. -/
theorem getCurrentUserPrincipal_public_counterexample :
    getCurrentUserPrincipal (initializeClientForPublicView newClient) = .ok none ∧
    getCurrentUserPrincipal (initializeClientForPublicView newClient) ≠
      .error CalError.notAuthenticated :=
  ⟨rfl, fun hcontra => Except.noConfusion hcontra⟩

/-- C3 (amended): on a session initialized via
`initializeClientForPublicView` (public mode, no authenticated connect
having populated the principal), `getCurrentUserPrincipal` returns the
absent principal as a value; it does not raise
`NotAuthenticatedError`. -/
theorem getCurrentUserPrincipal_public_absent (c : DavClient)
    (h : c.currentUserPrincipal = none) :
    getCurrentUserPrincipal (initializeClientForPublicView c) = .ok none ∧
    getCurrentUserPrincipal (initializeClientForPublicView c) ≠
      .error CalError.notAuthenticated := by
  constructor
  · simp [getCurrentUserPrincipal, initializeClientForPublicView,
      createPublicCalendarHome, h]
  · intro hcontra
    simp [getCurrentUserPrincipal, initializeClientForPublicView,
      createPublicCalendarHome] at hcontra

/-- Witness for C3 (amended) at the fresh client. -/
theorem getCurrentUserPrincipal_public_absent_witness :
    getCurrentUserPrincipal (initializeClientForPublicView newClient) = .ok none :=
  (getCurrentUserPrincipal_public_absent newClient rfl).1

/-- C4: `enableBirthdayCalendar` is an idempotent enable-then-fetch: on
a session with a calendar home it requests the server feature, then
re-resolves the calendar via the `getBirthdayCalendar` lookup; a second
call in succession succeeds again (no error, in particular no
already-exists error) and returns the identical identified calendar and
state. -/
theorem enableBirthdayCalendar_idempotent (c : DavClient) (h : c.calendarHomes ≠ []) :
    ∃ cal c2, enableBirthdayCalendar c = .ok (some cal, c2) ∧
      enableBirthdayCalendar c2 = .ok (some cal, c2) := by
  obtain ⟨home, rest, hc⟩ := List.exists_cons_of_ne_nil h
  obtain ⟨cal, hcal⟩ := Option.isSome_iff_exists.mp (enableBirthday_find_isSome home)
  refine ⟨cal, { c with calendarHomes := home.enableBirthday :: rest }, ?_, ?_⟩
  · simp [enableBirthdayCalendar, hc, getBirthdayCalendar, hcal, Except.map]
  · have hidem :=
      enableBirthday_of_isSome home.enableBirthday (enableBirthday_find_isSome home)
    simp [enableBirthdayCalendar, getBirthdayCalendar, hidem, hcal, Except.map]

/-- Witness for C4 on a session with one (initially empty) calendar
home. -/
theorem enableBirthdayCalendar_idempotent_witness :
    ∃ cal c2,
      enableBirthdayCalendar ⟨none, [⟨[], [], []⟩], none⟩ = .ok (some cal, c2) ∧
      enableBirthdayCalendar c2 = .ok (some cal, c2) :=
  enableBirthdayCalendar_idempotent ⟨none, [⟨[], [], []⟩], none⟩
    (fun hx => List.noConfusion hx)

/-- C5: `findSchedulingInbox` queries the full inbox list under the
first calendar home and returns its first element, and on a home with
zero scheduling inboxes it returns absent, not an error;
`findSchedulingOutbox` behaves symmetrically. -/
theorem findSchedulingInbox_first_or_absent (c : DavClient) (home : CalendarHome)
    (rest : List CalendarHome) (h : c.calendarHomes = home :: rest) :
    findSchedulingInbox c = .ok home.scheduleInboxes[0]? ∧
    (home.scheduleInboxes = [] → findSchedulingInbox c = .ok none) ∧
    findSchedulingOutbox c = .ok home.scheduleOutboxes[0]? ∧
    (home.scheduleOutboxes = [] → findSchedulingOutbox c = .ok none) := by
  refine ⟨by simp [findSchedulingInbox, h], ?_, by simp [findSchedulingOutbox, h], ?_⟩
  · intro he
    simp [findSchedulingInbox, h, he]
  · intro he
    simp [findSchedulingOutbox, h, he]

/-- Witness for C5 on a session whose single home has no scheduling
collections. -/
theorem findSchedulingInbox_first_or_absent_witness :
    findSchedulingInbox ⟨none, [⟨[], [], []⟩], none⟩ = .ok none ∧
    findSchedulingOutbox ⟨none, [⟨[], [], []⟩], none⟩ = .ok none :=
  ⟨(findSchedulingInbox_first_or_absent ⟨none, [⟨[], [], []⟩], none⟩ ⟨[], [], []⟩ [] rfl).2.1
      rfl,
   (findSchedulingInbox_first_or_absent ⟨none, [⟨[], [], []⟩], none⟩ ⟨[], [], []⟩ [] rfl).2.2.2
      rfl⟩

/-- C6: `findPrincipalsByDisplayName` with the empty string returns the
empty sequence while issuing zero server search requests and raising no
error, and any non-empty query is passed through to the server-side
property search unchanged (one request, result returned as-is). -/
theorem findPrincipalsByDisplayName_empty_query (search : String → List Principal)
    (query : String) :
    findPrincipalsByDisplayName search "" = ([], 0) ∧
    (query ≠ "" → findPrincipalsByDisplayName search query = (search query, 1)) := by
  constructor
  · rfl
  · intro hq
    simp [findPrincipalsByDisplayName, principalPropertySearchByDisplayname, hq]

/-- Witness for C6 on a one-hit directory. -/
theorem findPrincipalsByDisplayName_empty_query_witness :
    findPrincipalsByDisplayName (fun q => [⟨q, q⟩]) "" = ([], 0) ∧
    findPrincipalsByDisplayName (fun q => [⟨q, q⟩]) "Ann" = ([⟨"Ann", "Ann"⟩], 1) :=
  ⟨(findPrincipalsByDisplayName_empty_query (fun q => [⟨q, q⟩]) "Ann").1,
   (findPrincipalsByDisplayName_empty_query (fun q => [⟨q, q⟩]) "Ann").2 (by decide)⟩

/-- C7: every request opened through the header provider installed at
client construction carries the CSRF request token header
`requesttoken` and the caching hint header
`X-NC-CalDAV-Webcal-Caching`. -/
theorem openWithHeaders_injects_auth_headers (requesttoken : String) (req : Request) :
    ("requesttoken", requesttoken) ∈ (openWithHeaders requesttoken req).headers ∧
    ("X-NC-CalDAV-Webcal-Caching", "On") ∈ (openWithHeaders requesttoken req).headers := by
  constructor <;> simp [openWithHeaders, providerHeaders]

/-- C8: `initializeClientForPublicView` establishes only the
public-calendar-home placeholder; the current-user principal (no
principal discovery, no authenticated connect) and the calendar homes
are left unchanged. -/
theorem initializeClientForPublicView_frame (c : DavClient) :
    (initializeClientForPublicView c).publicCalendarHome = some () ∧
    (initializeClientForPublicView c).currentUserPrincipal = c.currentUserPrincipal ∧
    (initializeClientForPublicView c).calendarHomes = c.calendarHomes :=
  ⟨rfl, rfl, rfl⟩

/-- C10: every home-scoped operation reads the first calendar home with
an unguarded index.  On a session with no calendar home (uninitialized
or public-mode) each one throws a TypeError rather than returning
absent, whatever the server would have answered.  On a session with at
least one home the first-home access never fails: the discovery
operations succeed outright, and the create operations never raise the
TypeError, succeeding when the server accepts the request and failing
only with the server-side CollectionCreateError when it rejects it. -/
theorem homeScoped_first_home_unguarded (c : DavClient) (accept : Bool)
    (displayName color source : String) (components : List String) (order : Nat) :
    (c.calendarHomes = [] →
      findAllCalendars c = .error .typeError ∧
      findSchedulingInbox c = .error .typeError ∧
      findSchedulingOutbox c = .error .typeError ∧
      createCalendar accept displayName color components order c = .error .typeError ∧
      createSubscription accept displayName color source order c = .error .typeError ∧
      enableBirthdayCalendar c = .error .typeError ∧
      getBirthdayCalendar c = .error .typeError) ∧
    (c.calendarHomes ≠ [] →
      (findAllCalendars c).isOk = true ∧
      (findSchedulingInbox c).isOk = true ∧
      (findSchedulingOutbox c).isOk = true ∧
      createCalendar accept displayName color components order c ≠ .error .typeError ∧
      createSubscription accept displayName color source order c ≠ .error .typeError ∧
      (accept = true →
        (createCalendar accept displayName color components order c).isOk = true ∧
        (createSubscription accept displayName color source order c).isOk = true) ∧
      (accept = false →
        createCalendar accept displayName color components order c
          = .error .collectionCreateError ∧
        createSubscription accept displayName color source order c
          = .error .collectionCreateError) ∧
      (enableBirthdayCalendar c).isOk = true ∧
      (getBirthdayCalendar c).isOk = true) := by
  constructor
  · intro he
    refine ⟨?_, ?_, ?_, ?_, ?_, ?_, ?_⟩ <;>
      simp [findAllCalendars, findSchedulingInbox, findSchedulingOutbox, createCalendar,
        createSubscription, enableBirthdayCalendar, getBirthdayCalendar, he]
  · intro hne
    obtain ⟨home, rest, hc⟩ := List.exists_cons_of_ne_nil hne
    cases accept <;>
      refine ⟨?_, ?_, ?_, ?_, ?_, ?_, ?_, ?_, ?_⟩ <;>
      simp [findAllCalendars, findSchedulingInbox, findSchedulingOutbox, createCalendar,
        createSubscription, enableBirthdayCalendar, getBirthdayCalendar, hc,
        createCalendarCollection, createSubscribedCollection, Except.isOk, Except.toBool,
        Except.map]

/-- Witness for C10: with zero homes `findAllCalendars` throws the
TypeError; with one home discovery succeeds, an accepted create
succeeds, and a rejected create fails with the CollectionCreateError
and not with the TypeError. -/
theorem homeScoped_first_home_unguarded_witness :
    findAllCalendars ⟨none, [], none⟩ = .error .typeError ∧
    (findAllCalendars ⟨none, [⟨[], [], []⟩], none⟩).isOk = true ∧
    (createCalendar true "Work" "#FF0000" ["VEVENT"] 1
      ⟨none, [⟨[], [], []⟩], none⟩).isOk = true ∧
    createCalendar false "Work" "#FF0000" ["VEVENT"] 1 ⟨none, [⟨[], [], []⟩], none⟩
      = .error .collectionCreateError :=
  ⟨((homeScoped_first_home_unguarded ⟨none, [], none⟩ true "" "" "" [] 0).1 rfl).1,
   ((homeScoped_first_home_unguarded ⟨none, [⟨[], [], []⟩], none⟩ true "Work" "#FF0000" ""
      ["VEVENT"] 1).2 (fun hx => List.noConfusion hx)).1,
   (((homeScoped_first_home_unguarded ⟨none, [⟨[], [], []⟩], none⟩ true "Work" "#FF0000" ""
      ["VEVENT"] 1).2 (fun hx => List.noConfusion hx)).2.2.2.2.2.1 rfl).1,
   (((homeScoped_first_home_unguarded ⟨none, [⟨[], [], []⟩], none⟩ false "Work" "#FF0000" ""
      ["VEVENT"] 1).2 (fun hx => List.noConfusion hx)).2.2.2.2.2.2.1 rfl).1⟩

end CaldavService
